import Mathlib

/-!
Shallow embedding of `glean-core/python/glean/glean.py`: the Glean
lifecycle coordinator (the `Glean` class singleton state), the event
bridge (`OnGleanEventsImpl`), and the reset/teardown protocol.

External collaborators are modelled explicitly:
- calls crossing the foreign boundary (`_uniffi.*`), the `atexit` module
  and the `ProcessDispatcher` are recorded as an `Event` trace;
- the `ProcessDispatcher` is a single-concurrency FIFO queue of `Job`s
  held in the state (`pending`); waiting on it runs the queued jobs in
  submission order;
- the filesystem is the list `fs` of currently existing directories;
  an `_rmtree` job removes its path from `fs`.
-/

namespace GleanModel

/-- Modelled from the spec: the `Configuration` object from
`glean/config.py` (that file is not among the sources). Its recognized
options are a `channel` string tag propagated into client info and a
`maxEvents` integer cap; the default `Configuration()` leaves both unset. -/
structure Configuration where
  channel : Option String
  max_events : Option Nat
deriving DecidableEq, Repr

def Configuration.default : Configuration := ⟨none, none⟩

/-- The `_uniffi.Datetime` record built by `Glean.initialize`. -/
structure Datetime where
  year : Int
  month : Nat
  day : Nat
  hour : Nat
  minute : Nat
  second : Nat
  nanosecond : Nat
  offset_seconds : Int
deriving DecidableEq, Repr

/-- The fixed epoch build date `Glean.initialize` passes (glean.py 198-207). -/
def epochDatetime : Datetime := ⟨1970, 1, 1, 0, 0, 0, 0, 0⟩

/-- The `_uniffi.ClientInfoMetrics` record built by `Glean.initialize`. -/
structure ClientInfoMetrics where
  app_build : String
  app_display_version : String
  app_build_date : Datetime
  channel : Option String
  architecture : String
  os_version : String
  locale : Option String
  device_manufacturer : Option String
  device_model : Option String
  android_sdk_version : Option String
deriving DecidableEq, Repr

/-- The `_uniffi.InternalConfiguration` record built by `Glean.initialize`. -/
structure InternalConfiguration where
  data_path : String
  application_id : String
  language_binding_name : String
  upload_enabled : Bool
  max_events : Option Nat
  delay_ping_lifetime_io : Bool
  use_core_mps : Bool
  app_build : String
deriving DecidableEq, Repr

/-- A job submitted to the `ProcessDispatcher` (single-concurrency FIFO). -/
inductive Job where
  | rmtree (path : String)
  | uploadPass (testingMode : Bool)
deriving DecidableEq, Repr

/-- One observable step at an external boundary: the reentrant lock, the
`atexit` module, the `_uniffi` core entry points, and the dispatcher. -/
inductive Event where
  | lock
  | unlock
  | atexitRegister
  | atexitUnregister
  | coreInit (cfg : InternalConfiguration) (clientInfo : ClientInfoMetrics)
  | coreDestroy (preserveForTest : Bool)
  | coreSetTestMode (enabled : Bool)
  | dispatcherWaitLast
  | dispatch (job : Job)
  | jobWait
deriving DecidableEq, Repr

/-- The class-level state of `Glean` (glean.py 82-121) together with the
modelled environment: the filesystem (`fs`, list of existing directories),
the dispatcher queue (`pending`), and whether `atexit.register(Glean._reset)`
registrations are outstanding (`atexit_registered` counts them). -/
structure St where
  initialized : Bool
  init_finished : Bool
  testing_mode : Bool
  configuration : Option Configuration
  data_dir : String
  destroy_data_dir : Bool
  upload_enabled : Bool
  application_id : Option String
  application_version : Option String
  application_build_id : Option String
  simple_log_level : Option Int
  atexit_registered : Nat
  fs : List String
  pending : List Job
deriving DecidableEq, Repr

/-- `Glean.is_initialized` (glean.py 308-313): reads `_initialized`. -/
def is_initialized (s : St) : Bool := s.initialized

/-- The exception `Glean.initialize` can raise. -/
inductive InitError where
  | typeError (msg : String)
deriving DecidableEq, Repr

instance {ε α : Type} [DecidableEq ε] [DecidableEq α] :
    DecidableEq (Except ε α) := fun a b =>
  match a, b with
  | Except.ok x, Except.ok y =>
    if h : x = y then isTrue (by rw [h]) else isFalse (by simp [h])
  | Except.error x, Except.error y =>
    if h : x = y then isTrue (by rw [h]) else isFalse (by simp [h])
  | Except.ok _, Except.error _ => isFalse (by simp)
  | Except.error _, Except.ok _ => isFalse (by simp)

/-- Result of a call to `Glean.initialize`: the Python return/raise outcome,
the state afterwards, and the trace of external events it produced. -/
structure InitOutcome where
  result : Except InitError Unit
  state : St
  trace : List Event
deriving DecidableEq, Repr

/-- `Glean.initialize` (glean.py 123-233). Follows the source line by line:
store `log_level` (166-168); take the lock (170); return if already
initialized (171-172); register the atexit hook (174); default the
configuration (176-177); raise `TypeError` if `data_dir` is `None`
(179-180); store the session configuration with `"Unknown"` sentinels
(181-195); release the lock; build the client info and internal
configuration (198-230); call `_uniffi.glean_initialize` outside the lock
(232); set `_initialized` (233). -/
def initGlean (applicationId : String) (applicationVersion : Option String)
    (uploadEnabled : Bool) (config : Option Configuration)
    (dataDir : Option String) (buildId : Option String)
    (logLevel : Option Int) (s : St) : InitOutcome :=
  let s0 := match logLevel with
    | some l => { s with simple_log_level := some l }
    | none => s
  if is_initialized s0 then
    { result := Except.ok (), state := s0, trace := [Event.lock, Event.unlock] }
  else
    let s1 := { s0 with atexit_registered := s0.atexit_registered + 1 }
    let cfg0 := config.getD Configuration.default
    match dataDir with
    | none =>
      { result := Except.error (InitError.typeError "data_dir must be provided"),
        state := s1,
        trace := [Event.lock, Event.atexitRegister, Event.unlock] }
    | some d =>
      let s2 := { s1 with
        data_dir := d,
        destroy_data_dir := false,
        configuration := some cfg0,
        application_id := some applicationId,
        application_version := some (applicationVersion.getD "Unknown"),
        application_build_id := some (buildId.getD "Unknown") }
      let clientInfo : ClientInfoMetrics :=
        { app_build := buildId.getD "Unknown",
          app_display_version := applicationVersion.getD "Unknown",
          app_build_date := epochDatetime,
          channel := cfg0.channel,
          architecture := "Unknown",
          os_version := "Unknown",
          locale := none,
          device_manufacturer := none,
          device_model := none,
          android_sdk_version := none }
      let internalCfg : InternalConfiguration :=
        { data_path := d,
          application_id := applicationId,
          language_binding_name := "Python",
          upload_enabled := uploadEnabled,
          max_events := cfg0.max_events,
          delay_ping_lifetime_io := false,
          use_core_mps := false,
          app_build := buildId.getD "Unknown" }
      { result := Except.ok (),
        state := { s2 with initialized := true },
        trace := [Event.lock, Event.atexitRegister, Event.unlock,
                  Event.coreInit internalCfg clientInfo] }

/-- `Glean._initialize_with_tempdir_for_testing` (glean.py 235-261).
The fresh temporary directory name produced by `tempfile` is passed in as
`tempDirName`. After `initialize` returns, `_destroy_data_dir` is set. -/
def initGleanWithTempdirForTesting (applicationId : String)
    (applicationVersion : Option String) (uploadEnabled : Bool)
    (config : Option Configuration) (buildId : Option String)
    (tempDirName : String) (s : St) : InitOutcome :=
  let r := initGlean applicationId applicationVersion uploadEnabled config
    (some tempDirName) buildId none s
  { r with state := { r.state with destroy_data_dir := true } }

/-- Effect of running one dispatched job: `_rmtree` (glean.py 39-45)
removes the directory; an upload pass does not change the filesystem. -/
def runJob (fs : List String) (j : Job) : List String :=
  match j with
  | Job.rmtree p => fs.filter (fun q => q != p)
  | Job.uploadPass _ => fs

/-- Run a list of dispatched jobs in FIFO order. -/
def runAll (fs : List String) (jobs : List Job) : List String :=
  jobs.foldl runJob fs

/-- Result of `Glean._reset`: the state afterwards and the event trace. -/
structure ResetOutcome where
  state : St
  trace : List Event
deriving DecidableEq, Repr

/-- `Glean._reset` (glean.py 270-306). If `_destroy_data_dir` is set and the
data directory exists, wait for the last dispatched process (which, the
dispatcher being single-concurrency FIFO, runs every queued job); destroy
the core non-preserving; clear the core test mode; clear `_init_finished`,
`_initialized`, `_testing_mode`; unregister the atexit hook; then, if
`_destroy_data_dir` is set and the directory still exists, dispatch an
`_rmtree` job and wait for it (again draining the FIFO queue).
`_destroy_data_dir` itself is not written by `_reset`. -/
def reset (s : St) : ResetOutcome :=
  let doWait := s.destroy_data_dir = true ∧ s.data_dir ∈ s.fs
  let fs1 := if doWait then runAll s.fs s.pending else s.fs
  let pending1 := if doWait then ([] : List Job) else s.pending
  let tr1 := if doWait then [Event.dispatcherWaitLast] else ([] : List Event)
  let s2 := { s with
    init_finished := false,
    initialized := false,
    testing_mode := false,
    atexit_registered := 0,
    fs := fs1,
    pending := pending1 }
  if s.destroy_data_dir = true ∧ s.data_dir ∈ fs1 then
    let fs2 := runAll fs1 (pending1 ++ [Job.rmtree s.data_dir])
    { state := { s2 with
        fs := fs2,
        pending := [] },
      trace := tr1 ++ [Event.coreDestroy false, Event.coreSetTestMode false,
                       Event.atexitUnregister,
                       Event.dispatch (Job.rmtree s.data_dir), Event.jobWait] }
  else
    { state := s2,
      trace := tr1 ++ [Event.coreDestroy false, Event.coreSetTestMode false,
                       Event.atexitUnregister] }

/-- Modelled from the spec: `PingUploadWorker.process` (in `glean/net`,
not among the sources) submits an upload pass to the Job Dispatcher,
passing the testing-mode flag through. -/
def pingUploadWorkerProcess (testingMode : Bool) (s : St) : St × List Event :=
  ({ s with pending := s.pending ++ [Job.uploadPass testingMode] },
   [Event.dispatch (Job.uploadPass testingMode)])

/-- `OnGleanEventsImpl.trigger_upload` (glean.py 56-58): calls
`PingUploadWorker.process(Glean._testing_mode)`. -/
def trigger_upload (s : St) : St × List Event :=
  pingUploadWorkerProcess s.testing_mode s

/-- `OnGleanEventsImpl.on_initialize_finished` (glean.py 52-54). -/
def on_init_finished (s : St) : St :=
  { s with init_finished := true }

/-- The `RecordedExperiment` record returned by the core. -/
structure RecordedExperiment where
  branch : String
  extra : List (String × String)
deriving DecidableEq, Repr

/-- Failure modes of the experiment accessors: the specific
`RuntimeError` raised by `test_get_experiment_data`, versus a failure
propagating from inside the core boundary (never produced here). -/
inductive GleanError where
  | runtimeError (msg : String)
  | coreFailure (msg : String)
deriving DecidableEq, Repr

/-- `Glean.test_is_experiment_active` (glean.py 369-381): queries
`_uniffi.glean_test_get_experiment_data` (modelled as `coreData`) and
checks the result against `None`. -/
def test_is_experiment_active (coreData : String → Option RecordedExperiment)
    (experimentId : String) : Bool :=
  (coreData experimentId).isSome

/-- `Glean.test_get_experiment_data` (glean.py 383-399): returns the core
record when present, raises `RuntimeError("Experiment data is not set")`
when absent. -/
def test_get_experiment_data (coreData : String → Option RecordedExperiment)
    (experimentId : String) : Except GleanError RecordedExperiment :=
  match coreData experimentId with
  | some d => Except.ok d
  | none => Except.error (GleanError.runtimeError "Experiment data is not set")

/-- Contribution of one event to the lock depth. -/
def lockDelta (e : Event) : Int :=
  match e with
  | Event.lock => 1
  | Event.unlock => -1
  | _ => 0

/-- Net lock depth after a trace prefix. -/
def lockDepth (es : List Event) : Int :=
  (es.map lockDelta).sum

/-- A fresh, uninitialized state: all flags clear, nothing on disk,
empty dispatcher queue. -/
def sampleState : St :=
  { initialized := false, init_finished := false, testing_mode := false,
    configuration := none, data_dir := ".", destroy_data_dir := false,
    upload_enabled := true, application_id := none,
    application_version := none, application_build_id := none,
    simple_log_level := none, atexit_registered := 0,
    fs := [], pending := [] }


/-- Claim C7: every invocation of the `trigger_upload` bridge callback
submits exactly one upload pass to the Job Dispatcher, parameterized with
the coordinator's testing-mode flag at the time of the call. -/
theorem trigger_upload_submits_single_upload_pass (s : St) :
    (trigger_upload s).2 = [Event.dispatch (Job.uploadPass s.testing_mode)] ∧
    (trigger_upload s).1.pending = s.pending ++ [Job.uploadPass s.testing_mode] ∧
    ((trigger_upload s).2.filter (fun e =>
      match e with
      | Event.dispatch (Job.uploadPass _) => true
      | _ => false)).length = 1 :=
  ⟨rfl, rfl, rfl⟩

/-- Claim C8: `test_is_experiment_active` returns true exactly when the
core's experiment-data query returns a record; `test_get_experiment_data`
returns the record when the core reports one and fails with the specific
`RuntimeError "Experiment data is not set"` (never a generic core failure)
exactly when the core reports none. -/
theorem experiment_accessors_match_core
    (coreData : String → Option RecordedExperiment) (experimentId : String) :
    (test_is_experiment_active coreData experimentId = true ↔
      (coreData experimentId).isSome = true) ∧
    (∀ d, coreData experimentId = some d →
      test_get_experiment_data coreData experimentId = Except.ok d) ∧
    (coreData experimentId = none ↔
      test_get_experiment_data coreData experimentId =
        Except.error (GleanError.runtimeError "Experiment data is not set")) ∧
    (∀ msg, test_get_experiment_data coreData experimentId ≠
      Except.error (GleanError.coreFailure msg)) := by
  refine ⟨by simp [test_is_experiment_active], ?_, ?_, ?_⟩
  · intro d hd
    simp [test_get_experiment_data, hd]
  · cases hc : coreData experimentId <;> simp [test_get_experiment_data, hc]
  · intro msg
    cases hc : coreData experimentId <;> simp [test_get_experiment_data, hc]

/-- A concrete core experiment table with a single active experiment. -/
def expCore : String → Option RecordedExperiment := fun i =>
  if i = "exp1" then some ⟨"branch-a", []⟩ else none

theorem experiment_accessors_match_core_witness :
    expCore "exp1" = some ⟨"branch-a", []⟩ ∧
    test_get_experiment_data expCore "exp1" = Except.ok ⟨"branch-a", []⟩ :=
  ⟨by decide,
   (experiment_accessors_match_core expCore "exp1").2.1 ⟨"branch-a", []⟩ (by decide)⟩

/-- Claim C4 counterexample: `reset` does not clear the destroy-data-dir
ownership flag — starting from a state with the flag set, the flag is
still set after `reset` returns. -/
theorem reset_leaves_destroy_data_dir_counterexample :
    ¬ ((reset { sampleState with destroy_data_dir := true }).state.destroy_data_dir
        = false) := by
  decide

/-- Claim C4 (amended): after `reset` returns, `is_initialized` is false
and the init-finished and testing-mode flags are false and the exit hook
is unregistered, but the destroy-data-dir ownership flag keeps its prior
value (only the next accepted `initialize` sets it back to false). -/
theorem reset_clears_flags (s : St) :
    is_initialized (reset s).state = false ∧
    (reset s).state.init_finished = false ∧
    (reset s).state.testing_mode = false ∧
    (reset s).state.atexit_registered = 0 ∧
    (reset s).state.destroy_data_dir = s.destroy_data_dir := by
  by_cases h1 : s.destroy_data_dir = true ∧ s.data_dir ∈ s.fs
  · simp [reset, is_initialized, h1]
    split <;> simp
  · simp [reset, is_initialized, h1]

/-- Claim C1: once `is_initialized` already returns true, a further
`initialize` call, with any arguments, returns normally, issues no core
initialize call, and leaves the stored data dir, configuration object and
application id/version/build id unchanged. -/
theorem initGlean_idempotent (a : String) (v : Option String) (u : Bool)
    (c : Option Configuration) (d : Option String) (b : Option String)
    (l : Option Int) (s : St) (h : is_initialized s = true) :
    (initGlean a v u c d b l s).result = Except.ok () ∧
    (∀ cfg ci, Event.coreInit cfg ci ∉ (initGlean a v u c d b l s).trace) ∧
    (initGlean a v u c d b l s).state.data_dir = s.data_dir ∧
    (initGlean a v u c d b l s).state.configuration = s.configuration ∧
    (initGlean a v u c d b l s).state.application_id = s.application_id ∧
    (initGlean a v u c d b l s).state.application_version = s.application_version ∧
    (initGlean a v u c d b l s).state.application_build_id = s.application_build_id := by
  rw [is_initialized] at h
  cases l <;> simp [initGlean, is_initialized, h]

theorem initGlean_idempotent_witness :
    is_initialized { sampleState with initialized := true } = true ∧
    (initGlean "a" none true none none none none
      { sampleState with initialized := true }).result = Except.ok () :=
  ⟨by decide,
   (initGlean_idempotent "a" none true none none none none
     { sampleState with initialized := true } (by decide)).1⟩
/-- Claim C5 counterexample: calling `initialize` with `data_dir` absent on
an uninitialized coordinator raises the caller error but does mutate state:
the process-exit hook is registered before the error is raised. -/
theorem initGlean_missing_datadir_counterexample :
    (initGlean "app" none true none none none none sampleState).result
      = Except.error (InitError.typeError "data_dir must be provided") ∧
    ¬ ((initGlean "app" none true none none none none sampleState).state
        = sampleState) ∧
    (initGlean "app" none true none none none none
        sampleState).state.atexit_registered = 1 := by
  decide

/-- Claim C5 (amended): with `data_dir` absent and the coordinator
uninitialized, `initialize` fails with the caller error before any core
call, storing no configuration and changing no flags — but it registers the
process-exit hook (and stores a provided log level) before raising. -/
theorem initGlean_missing_datadir (a : String) (v : Option String) (u : Bool)
    (c : Option Configuration) (b : Option String) (l : Option Int) (s : St)
    (h : s.initialized = false) :
    (initGlean a v u c none b l s).result =
      Except.error (InitError.typeError "data_dir must be provided") ∧
    (∀ cfg ci, Event.coreInit cfg ci ∉ (initGlean a v u c none b l s).trace) ∧
    (initGlean a v u c none b l s).state =
      { s with
        atexit_registered := s.atexit_registered + 1,
        simple_log_level := match l with
          | some x => some x
          | none => s.simple_log_level } := by
  cases l <;> simp [initGlean, is_initialized, h]

theorem initGlean_missing_datadir_witness :
    sampleState.initialized = false ∧
    (initGlean "app" none true none none none none sampleState).result =
      Except.error (InitError.typeError "data_dir must be provided") :=
  ⟨rfl, (initGlean_missing_datadir "app" none true none none none
    sampleState rfl).1⟩

/-- Claim C3: a directory-removal job is submitted by `reset` only when the
destroy-data-dir ownership flag is true and the data directory exists; when
the flag is false, `reset` performs no dispatcher wait, deletes nothing,
and leaves the dispatcher queue untouched. -/
theorem reset_deletes_only_when_owned (s : St) :
    (∀ p, Event.dispatch (Job.rmtree p) ∈ (reset s).trace →
      s.destroy_data_dir = true ∧ s.data_dir ∈ s.fs) ∧
    (s.destroy_data_dir = false →
      (reset s).trace =
        [Event.coreDestroy false, Event.coreSetTestMode false,
         Event.atexitUnregister] ∧
      (reset s).state.fs = s.fs ∧
      (reset s).state.pending = s.pending) := by
  by_cases hd : s.destroy_data_dir = true
  · by_cases hm : s.data_dir ∈ s.fs
    · simp [reset, hd, hm]
    · simp [reset, hd, hm]
  · simp [reset, hd]

/-- A state owning an existing data directory `"d"`. -/
def ownedState : St :=
  { sampleState with destroy_data_dir := true, data_dir := "d", fs := ["d"] }

theorem reset_deletes_only_when_owned_witness :
    (Event.dispatch (Job.rmtree "d") ∈ (reset ownedState).trace) ∧
    (ownedState.destroy_data_dir = true ∧ ownedState.data_dir ∈ ownedState.fs) ∧
    (reset sampleState).state.fs = sampleState.fs :=
  ⟨by decide,
   (reset_deletes_only_when_owned ownedState).1 "d" (by decide),
   ((reset_deletes_only_when_owned sampleState).2 rfl).2.1⟩

/-- Claim C9: every accepted public `initialize` call clears the
destroy-data-dir ownership flag; with the flag clear, `reset` never waits
on the dispatcher and never deletes the data directory; ownership arises
only through the internal temp-directory testing entry point, which sets
the flag after `initialize` returns. -/
theorem ownership_only_from_testing_entry :
    (∀ a v u c d b l s, s.initialized = false →
      (initGlean a v u c (some d) b l s).state.destroy_data_dir = false) ∧
    (∀ s, s.destroy_data_dir = false →
      (reset s).trace =
        [Event.coreDestroy false, Event.coreSetTestMode false,
         Event.atexitUnregister] ∧
      (reset s).state.fs = s.fs ∧
      (reset s).state.pending = s.pending) ∧
    (∀ a v u c b t s,
      (initGleanWithTempdirForTesting a v u c b t s).state.destroy_data_dir
        = true) := by
  refine ⟨?_, ?_, ?_⟩
  · intro a v u c d b l s h
    cases l <;> simp [initGlean, is_initialized, h]
  · intro s h
    have hd : ¬(s.destroy_data_dir = true) := by simp [h]
    simp [reset, hd]
  · intro a v u c b t s
    rfl

theorem ownership_only_from_testing_entry_witness :
    (initGlean "app" none true none (some "d") none none
      sampleState).state.destroy_data_dir = false ∧
    (reset sampleState).state.fs = sampleState.fs ∧
    (initGleanWithTempdirForTesting "app" none true none none "t"
      sampleState).state.destroy_data_dir = true :=
  ⟨ownership_only_from_testing_entry.1 "app" none true none "d" none none
     sampleState rfl,
   ((ownership_only_from_testing_entry.2.1 sampleState) rfl).2.1,
   ownership_only_from_testing_entry.2.2 "app" none true none none "t"
     sampleState⟩
/-- Claim C10: an accepted `initialize` call stores `"Unknown"` for an
absent application version or build id (and a provided value unchanged),
and forwards the stored values into the client info
(`app_display_version`, `app_build`) and the internal configuration
(`app_build`) passed to the core initialize call. -/
theorem initGlean_unknown_sentinels (a : String) (v : Option String)
    (u : Bool) (c : Option Configuration) (d : String) (b : Option String)
    (l : Option Int) (s : St) (h : s.initialized = false) :
    (initGlean a v u c (some d) b l s).state.application_version =
      some (v.getD "Unknown") ∧
    (initGlean a v u c (some d) b l s).state.application_build_id =
      some (b.getD "Unknown") ∧
    (∃ cfg ci,
      (initGlean a v u c (some d) b l s).trace =
        [Event.lock, Event.atexitRegister, Event.unlock,
         Event.coreInit cfg ci] ∧
      ci.app_display_version = v.getD "Unknown" ∧
      ci.app_build = b.getD "Unknown" ∧
      cfg.app_build = b.getD "Unknown") := by
  refine ⟨?_, ?_,
    ⟨{ data_path := d, application_id := a, language_binding_name := "Python",
       upload_enabled := u, max_events := (c.getD Configuration.default).max_events,
       delay_ping_lifetime_io := false, use_core_mps := false,
       app_build := b.getD "Unknown" },
     { app_build := b.getD "Unknown", app_display_version := v.getD "Unknown",
       app_build_date := epochDatetime,
       channel := (c.getD Configuration.default).channel,
       architecture := "Unknown", os_version := "Unknown", locale := none,
       device_manufacturer := none, device_model := none,
       android_sdk_version := none },
     ?_, rfl, rfl, rfl⟩⟩ <;>
  cases l <;> simp [initGlean, is_initialized, h]

theorem initGlean_unknown_sentinels_witness :
    sampleState.initialized = false ∧
    (initGlean "app" none true none (some "d") none none
      sampleState).state.application_version = some "Unknown" :=
  ⟨rfl, (initGlean_unknown_sentinels "app" none true none "d" none none
    sampleState rfl).1⟩

/-- Running a FIFO backlog consisting only of upload passes leaves the
filesystem unchanged. -/
theorem runAll_uploads_only (fs : List String) (jobs : List Job)
    (h : ∀ j ∈ jobs, ∃ bo, j = Job.uploadPass bo) : runAll fs jobs = fs := by
  induction jobs with
  | nil => rfl
  | cons j rest ih =>
    obtain ⟨bo, rfl⟩ := h j (List.mem_cons_self _ _)
    simpa [runAll, runJob] using ih (fun x hx => h x (List.mem_cons_of_mem _ hx))

/-- A state owning an existing data directory with a pending upload job. -/
def uploadBacklogState : St :=
  { sampleState with
    destroy_data_dir := true,
    data_dir := "d",
    fs := ["d"],
    pending := [Job.uploadPass false] }

/-- Claim C2: when the coordinator owns an existing data directory and the
dispatcher backlog consists of upload jobs, `reset` performs, in order:
wait for the last dispatched job, destroy the core non-preserving, clear
the core test mode, unregister the exit hook, dispatch the directory
removal and wait for it; on return every previously submitted job has
completed (the queue is empty) and the directory no longer exists. -/
theorem reset_teardown_protocol (s : St)
    (h1 : s.destroy_data_dir = true) (h2 : s.data_dir ∈ s.fs)
    (h3 : ∀ j ∈ s.pending, ∃ bo, j = Job.uploadPass bo) :
    (reset s).trace =
      [Event.dispatcherWaitLast, Event.coreDestroy false,
       Event.coreSetTestMode false, Event.atexitUnregister,
       Event.dispatch (Job.rmtree s.data_dir), Event.jobWait] ∧
    (reset s).state.pending = [] ∧
    s.data_dir ∉ (reset s).state.fs := by
  have hfs : runAll s.fs s.pending = s.fs := runAll_uploads_only s.fs s.pending h3
  simp [reset, h1, h2, hfs]
  simp [runAll, runJob, List.mem_filter]

theorem reset_teardown_protocol_witness :
    (uploadBacklogState.destroy_data_dir = true ∧
     uploadBacklogState.data_dir ∈ uploadBacklogState.fs) ∧
    (reset uploadBacklogState).state.pending = [] ∧
    uploadBacklogState.data_dir ∉ (reset uploadBacklogState).state.fs :=
  ⟨⟨rfl, by decide⟩,
   (reset_teardown_protocol uploadBacklogState rfl (by decide) (by decide)).2⟩

/-- Claim C6: `initialize` never holds the lock while the core initialize
call is in flight — at every point of an `initialize` trace where the core
initialize event occurs, the net lock depth of the preceding prefix is
zero. -/
theorem initGlean_core_call_outside_lock (a : String) (v : Option String)
    (u : Bool) (c : Option Configuration) (d : Option String)
    (b : Option String) (l : Option Int) (s : St) (i : Nat)
    (cfg : InternalConfiguration) (ci : ClientInfoMetrics)
    (h : (initGlean a v u c d b l s).trace.get? i
        = some (Event.coreInit cfg ci)) :
    lockDepth ((initGlean a v u c d b l s).trace.take i) = 0 := by
  have htr : (initGlean a v u c d b l s).trace = [Event.lock, Event.unlock] ∨
      (initGlean a v u c d b l s).trace =
        [Event.lock, Event.atexitRegister, Event.unlock] ∨
      ∃ cfg2 ci2, (initGlean a v u c d b l s).trace =
        [Event.lock, Event.atexitRegister, Event.unlock,
         Event.coreInit cfg2 ci2] := by
    by_cases h0 : s.initialized = true <;> cases l <;> cases d <;>
      simp [initGlean, is_initialized, h0]
  rcases htr with htr | htr | ⟨cfg2, ci2, htr⟩ <;> rw [htr] at h ⊢
  · rcases i with _ | _ | i <;> simp [List.get?] at h
  · rcases i with _ | _ | _ | i <;> simp [List.get?] at h
  · rcases i with _ | _ | _ | _ | i <;> simp [List.get?] at h
    simp [lockDepth, lockDelta, List.take]

theorem initGlean_core_call_outside_lock_witness :
    ((initGlean "app" none true none (some "d") none none
        sampleState).trace.get? 3 = some (Event.coreInit
        ⟨"d", "app", "Python", true, none, false, false, "Unknown"⟩
        ⟨"Unknown", "Unknown", epochDatetime, none, "Unknown", "Unknown",
         none, none, none, none⟩)) ∧
    lockDepth ((initGlean "app" none true none (some "d") none none
        sampleState).trace.take 3) = 0 :=
  ⟨by decide,
   initGlean_core_call_outside_lock "app" none true none (some "d") none
     none sampleState 3
     ⟨"d", "app", "Python", true, none, false, false, "Unknown"⟩
     ⟨"Unknown", "Unknown", epochDatetime, none, "Unknown", "Unknown",
      none, none, none, none⟩ (by decide)⟩

end GleanModel
